import Mathlib

/-!
Verification of the lifecycle / request-context layer of the lyanna blog
application (src/app.py) against its natural-language specification.

The Python module is shallowly embedded: each function of app.py becomes a
Lean definition over explicit state (the Redis key-value store, the memcached
memory cache, the process-global handles).  Cooperative asyncio concurrency is
modelled as an interleaving of atomic segments, a segment being the code that
runs between two consecutive await points.  Components of the repository that
are imported by app.py but whose source is not part of the module under
inspection (the cache decorator of models/mc.py, User.get_or_404 of models)
are modelled from the specification and flagged as such in their doc strings.
-/

namespace Lyanna

/-! ## String utilities

Python's `in` test on strings is substring containment and f-string
interpolation is concatenation; both are modelled over the character list of
a `String`. -/

/-- Boolean test that the first character list is an initial segment of the
second. -/
def listPre : List Char → List Char → Bool
  | [], _ => true
  | _ :: _, [] => false
  | a :: as, b :: bs => a == b && listPre as bs

/-- Boolean test that `pat` occurs as a contiguous run somewhere in the
second list. -/
def listInf (pat : List Char) : List Char → Bool
  | [] => listPre pat []
  | b :: bs => listPre pat (b :: bs) || listInf pat bs

/-- Python's substring test `pat in s`. -/
def strContains (s pat : String) : Bool := listInf pat.toList s.toList

/-- Test that `s` begins with `pat` (used only to formalise the
specification's "URL-prefix" wording, never by the embedded code). -/
def strStarts (s pat : String) : Bool := listPre pat.toList s.toList

/-! ## Key-value stores

Both redis (`set`/`get`) and memcached are modelled as association lists in
which a newly written pair shadows any older pair with the same key, so a
write overwrites the previous value. -/

/-- Read a key from an association-list store; the first (most recent)
binding wins. -/
def kvGet (kv : List (String × String)) (k : String) : Option String :=
  (kv.find? (fun p => p.1 == k)).map (fun p => p.2)

/-- Write a key into an association-list store, overwriting (shadowing) any
previous binding. -/
def kvSet (kv : List (String × String)) (k v : String) : List (String × String) :=
  (k, v) :: kv

theorem kvGet_kvSet_same (kv : List (String × String)) (k v : String) :
    kvGet (kvSet kv k v) k = some v := by
  simp [kvGet, kvSet, List.find?]

/-! ## Auth token bridge (src/app.py lines 38-46)

`store_refresh_token` and `retrieve_refresh_token` build the key
`refresh_token_{user_id}` by f-string interpolation and call `redis.set` /
`redis.get` on it. -/

/-- Embedding of `store_refresh_token` (app.py line 38): writes the token
into the redis store under the key built from the user id. -/
def store_refresh_token (kv : List (String × String)) (user_id : Nat)
    (refresh_token : String) : List (String × String) :=
  kvSet kv ("refresh_token_" ++ toString user_id) refresh_token

/-- Embedding of `retrieve_refresh_token` (app.py line 44): reads the key
built from the user id; `redis.get` on an absent key yields the absent
value. -/
def retrieve_refresh_token (kv : List (String × String)) (user_id : Nat) :
    Option String :=
  kvGet kv ("refresh_token_" ++ toString user_id)

/-- C3: storing a refresh token for user `u` writes exactly the key
`refresh_token_{u}`, overwriting any previous value, so a subsequent retrieve
for `u` returns the token just stored; retrieving for a user in a store where
nothing was ever stored yields the absent value, as does retrieving user 999
after storing only for user 42. -/
theorem token_roundtrip :
    (∀ kv u t, retrieve_refresh_token (store_refresh_token kv u t) u = some t) ∧
    (∀ kv u t, store_refresh_token kv u t
        = kvSet kv ("refresh_token_" ++ toString u) t) ∧
    (∀ u, retrieve_refresh_token [] u = none) ∧
    retrieve_refresh_token (store_refresh_token [] 42 "abc") 999 = none := by
  refine ⟨fun kv u t => ?_, fun kv u t => rfl, fun u => rfl, by decide⟩
  exact kvGet_kvSet_same kv _ t

/-! ## Identity resolution (src/app.py lines 31-35)

`retrieve_user` receives the decoded JWT payload, a possibly absent mapping.
A payload value is modelled as an association list from string keys to
optional user ids (a key may be bound to Python's `None`).  `payload.get`
returns the binding of the key or `None` when the key is absent. -/

/-- Python's `payload.get(k, None)` on a dict whose values are optional user
ids: absent key and key bound to `None` both give `none`. -/
def pyGet (p : List (String × Option Nat)) (k : String) : Option Nat :=
  ((p.find? (fun e => e.1 == k)).map (fun e => e.2)).getD none

/-- The distinguished failure raised by `get_or_404` (a 404 abort in the
web framework). -/
inductive AuthFailure
  | notFound
deriving DecidableEq, Repr

/-- Modelled from the spec: `User.get_or_404` lives in the `models` package,
which is not part of the module under inspection.  Per the specification it
returns the user entity for a known user id and fails with the distinguished
not-found error otherwise.  The set of known users is an explicit list of
ids; the user entity is identified with its id. -/
def get_or_404 (known : List Nat) (uid : Nat) : Except AuthFailure Nat :=
  if known.contains uid then Except.ok uid else Except.error AuthFailure.notFound

/-- Embedding of `retrieve_user` (app.py line 31): an absent or empty (falsy)
payload, or a payload without a `user_id` binding, falls through and returns
`None`; a bound user id is resolved through `get_or_404`, whose not-found
failure propagates. -/
def retrieve_user (known : List Nat) (payload : Option (List (String × Option Nat))) :
    Except AuthFailure (Option Nat) :=
  match payload with
  | none => Except.ok none
  | some p =>
    if p.isEmpty then Except.ok none
    else
      match pyGet p "user_id" with
      | some uid => (get_or_404 known uid).map some
      | none => Except.ok none

theorem pyGet_ne_empty {p : List (String × Option Nat)} {k : String} {uid : Nat}
    (h : pyGet p k = some uid) : p.isEmpty = false := by
  cases p with
  | nil => simp [pyGet, List.find?] at h
  | cons a l => rfl

/-- C4: a payload whose `user_id` resolves to a known user yields that user;
a payload whose `user_id` is unknown fails with the distinguished not-found
error; an absent payload, and a payload without a `user_id` binding, yield
the absent value without any error. -/
theorem identity_resolution (known : List Nat) (p : List (String × Option Nat))
    (uid : Nat) :
    (pyGet p "user_id" = some uid → known.contains uid = true →
      retrieve_user known (some p) = Except.ok (some uid)) ∧
    (pyGet p "user_id" = some uid → known.contains uid = false →
      retrieve_user known (some p) = Except.error AuthFailure.notFound) ∧
    retrieve_user known none = Except.ok none ∧
    (pyGet p "user_id" = none → retrieve_user known (some p) = Except.ok none) := by
  refine ⟨fun hget hin => ?_, fun hget hout => ?_, rfl, fun hget => ?_⟩
  · have hin2 : uid ∈ known := by simpa using hin
    simp [retrieve_user, pyGet_ne_empty hget, hget, get_or_404, hin2, Except.map]
  · have hout2 : uid ∉ known := by simpa using hout
    simp [retrieve_user, pyGet_ne_empty hget, hget, get_or_404, hout2, Except.map]
  · cases p with
    | nil => rfl
    | cons a l => simp [retrieve_user, hget]

/-- C4 witness: with known users `[7]`, the payload binding `user_id` to 7
resolves to user 7, the payload binding it to 99999 raises not-found, the
absent payload and the empty payload yield the absent value. -/
theorem identity_resolution_witness :
    retrieve_user [7] (some [("user_id", some 7)]) = Except.ok (some 7) ∧
    retrieve_user [7] (some [("user_id", some 99999)])
      = Except.error AuthFailure.notFound ∧
    retrieve_user [7] none = Except.ok none ∧
    retrieve_user [7] (some []) = Except.ok none := by
  refine ⟨(identity_resolution [7] [("user_id", some 7)] 7).1 (by decide) (by decide),
    (identity_resolution [7] [("user_id", some 99999)] 99999).2.1 (by decide) (by decide),
    (identity_resolution [7] [] 0).2.2.1, rfl⟩

/-! ## Global error handler (src/app.py lines 72-78)

`ErrorHandler.default` inspects `str(exception)` and the formatted traceback
of the in-flight exception.  An exception in flight is modelled by those two
strings; the handler either rewraps it as a `ServerError` whose message is
the fixed advice line followed by the formatted traceback, or hands the
original exception unchanged to the framework's default handling. -/

/-- An exception surfacing during a request, as seen by the error handler:
its `str()` text and its formatted traceback. -/
structure RaisedExc where
  excText : String
  tbText : String
deriving DecidableEq, Repr

/-- What `ErrorHandler.default` passes on to the framework's default
handler: either a freshly built `ServerError` or the original exception. -/
inductive HandlerDecision
  | translated (msg : String)
  | passthrough (e : RaisedExc)
deriving DecidableEq, Repr

/-- Embedding of `ErrorHandler.default` (app.py line 73): when the exception
text contains `Connection refused` and the traceback mentions `memcache`, the
exception is replaced by a `ServerError` carrying the advice message with the
traceback appended; otherwise the exception is passed through unchanged. -/
def ErrorHandler.default (e : RaisedExc) : HandlerDecision :=
  if strContains e.excText "Connection refused" && strContains e.tbText "memcache" then
    HandlerDecision.translated
      ("Please confirm that memcached is running!\n" ++ e.tbText)
  else
    HandlerDecision.passthrough e

/-- C8: the handler translates an exception if and only if its text contains
the connection-refused indication and its traceback implicates the memory
cache; the translated error's message is the advice to confirm that memcached
is running followed by the original formatted stack trace (so the trace is
preserved); every other exception is passed through unchanged. -/
theorem error_translation (e : RaisedExc) :
    ((strContains e.excText "Connection refused"
        && strContains e.tbText "memcache") = true →
      ErrorHandler.default e = HandlerDecision.translated
        ("Please confirm that memcached is running!\n" ++ e.tbText)) ∧
    ((strContains e.excText "Connection refused"
        && strContains e.tbText "memcache") = false →
      ErrorHandler.default e = HandlerDecision.passthrough e) ∧
    ((ErrorHandler.default e ≠ HandlerDecision.passthrough e) ↔
      (strContains e.excText "Connection refused"
        && strContains e.tbText "memcache") = true) := by
  refine ⟨fun h => by simp [ErrorHandler.default, h], fun h => by
    simp [ErrorHandler.default, h], ?_⟩
  by_cases h : (strContains e.excText "Connection refused"
      && strContains e.tbText "memcache") = true
  · simp [ErrorHandler.default, h]
  · simp [ErrorHandler.default, h]

/-- C8 witness: a connection-refused exception whose traceback goes through
the memcache client is translated into the advice message carrying the
traceback, and an unrelated exception is passed through unchanged. -/
theorem error_translation_witness :
    ErrorHandler.default
      (RaisedExc.mk "ConnectionRefusedError: Connection refused"
        "  File aiomcache/client.py, in memcache connect")
      = HandlerDecision.translated
        ("Please confirm that memcached is running!\n"
          ++ "  File aiomcache/client.py, in memcache connect") ∧
    ErrorHandler.default (RaisedExc.mk "ValueError: bad value" "  File views/blog.py")
      = HandlerDecision.passthrough
        (RaisedExc.mk "ValueError: bad value" "  File views/blog.py") := by
  exact ⟨(error_translation _).1 (by decide), (error_translation _).2.1 (by decide)⟩

/-! ## Not-found handler (src/app.py lines 99-102)

The application registers `ignore_404s` for the `NotFound` exception class;
in the web framework `FileNotFound` is a subclass of `NotFound`, so both are
routed to it.  Any exception of that class is answered with a plain `text`
response, whose framework default status is 200. -/

/-- The exception classes relevant to dispatching an in-request exception to
a registered handler. -/
inductive SanicExc
  | notFound (msg : String)
  | fileNotFound (msg : String)
  | serverError (msg : String)
  | otherExc (msg : String)
deriving DecidableEq, Repr

/-- Class test used by the framework's handler dispatch: `FileNotFound` is a
subclass of `NotFound`, so both match a handler registered for
`NotFound`. -/
def isNotFoundClass : SanicExc → Bool
  | SanicExc.notFound _ => true
  | SanicExc.fileNotFound _ => true
  | _ => false

/-- An HTTP response: body text and status code. -/
structure HTTPResp where
  body : String
  status : Nat
deriving DecidableEq, Repr

/-- The framework's `text` helper with its default status 200. -/
def textResponse (s : String) : HTTPResp := HTTPResp.mk s 200

/-- Embedding of `ignore_404s` (app.py line 100): answers with a plain text
response regardless of the exception. -/
def ignore_404s (_e : SanicExc) : HTTPResp :=
  textResponse "Oops, That page couldn\x27t found."

/-- Exception dispatch for this application: exceptions of the `NotFound`
class go to the registered `ignore_404s` handler; anything unhandled falls
back to the framework's generic 500 response. -/
def handleException (e : SanicExc) : HTTPResp :=
  if isNotFoundClass e then ignore_404s e
  else HTTPResp.mk "Internal Server Error" 500

/-- C9: every request raising an exception of the not-found class (NotFound
or FileNotFound) is answered with the plain page-not-found text at status
200, which in particular is never a 500. -/
theorem notfound_recovery (e : SanicExc) (h : isNotFoundClass e = true) :
    handleException e = HTTPResp.mk "Oops, That page couldn\x27t found." 200 ∧
    (handleException e).status ≠ 500 := by
  constructor
  · simp [handleException, h, ignore_404s, textResponse]
  · simp [handleException, h, ignore_404s, textResponse]

/-- C9 witness: both a `NotFound` for an unknown route and a `FileNotFound`
are recovered into the plain text response with status 200. -/
theorem notfound_recovery_witness :
    handleException (SanicExc.notFound "/nope")
      = HTTPResp.mk "Oops, That page couldn\x27t found." 200 ∧
    (handleException (SanicExc.fileNotFound "/static/nope")).status ≠ 500 := by
  exact ⟨(notfound_recovery (SanicExc.notFound "/nope") rfl).1,
    (notfound_recovery (SanicExc.fileNotFound "/static/nope") rfl).2⟩

/-! ## Startup hook (src/app.py lines 110-117)

`setup_db` is a straight-line sequence of five awaited or direct effects.
Each line is an event; Python exception semantics make an exception at any
line abort the sequence, leaving the earlier lines performed.  The embedding
is parameterised by which steps raise, and returns whether startup succeeded
together with the list of steps attempted, in order. -/

/-- The five effects performed by the `before_server_start` listener, one per
line of `setup_db`. -/
inductive StartupStep
  | initDB
  | createMemcacheClient
  | bindSessionInterface
  | createHttpClient
  | mkdirUploadFolder
deriving DecidableEq, Repr

/-- Embedding of `setup_db` (app.py line 111): `await init_db()`, then
`aiomcache.Client(...)`, then `session.init_app(...)` binding that client,
then `aiohttp.ClientSession()`, then `Path(config.UPLOAD_FOLDER).mkdir(...)`.
An exception at any step stops execution there. -/
def setup_db (failing : StartupStep → Bool) : Bool × List StartupStep :=
  let t0 := [StartupStep.initDB]
  if failing StartupStep.initDB then (false, t0) else
  let t1 := t0 ++ [StartupStep.createMemcacheClient]
  if failing StartupStep.createMemcacheClient then (false, t1) else
  let t2 := t1 ++ [StartupStep.bindSessionInterface]
  if failing StartupStep.bindSessionInterface then (false, t2) else
  let t3 := t2 ++ [StartupStep.createHttpClient]
  if failing StartupStep.createHttpClient then (false, t3) else
  let t4 := t3 ++ [StartupStep.mkdirUploadFolder]
  if failing StartupStep.mkdirUploadFolder then (false, t4) else
  (true, t4)

/-- C6: when no step raises, startup performs exactly the five steps in the
order open-relational-store, construct-memory-cache-handle, bind-it-into-
session-storage, construct-HTTP-client, ensure-upload-directory; and an
exception from the first step aborts startup with nothing after it
attempted. -/
theorem startup_order (failing : StartupStep → Bool) :
    ((∀ s, failing s = false) → setup_db failing =
      (true, [StartupStep.initDB, StartupStep.createMemcacheClient,
        StartupStep.bindSessionInterface, StartupStep.createHttpClient,
        StartupStep.mkdirUploadFolder])) ∧
    (failing StartupStep.initDB = true →
      setup_db failing = (false, [StartupStep.initDB])) := by
  constructor
  · intro h
    simp [setup_db, h]
  · intro h
    simp [setup_db, h]

/-- C6 witness: with no failing step the full ordered trace is produced, and
with a failing relational-store connection only that step is attempted. -/
theorem startup_order_witness :
    setup_db (fun _ => false) =
      (true, [StartupStep.initDB, StartupStep.createMemcacheClient,
        StartupStep.bindSessionInterface, StartupStep.createHttpClient,
        StartupStep.mkdirUploadFolder]) ∧
    setup_db (fun s => s == StartupStep.initDB) = (false, [StartupStep.initDB]) := by
  exact ⟨(startup_order (fun _ => false)).1 (fun s => rfl),
    (startup_order (fun s => s == StartupStep.initDB)).2 rfl⟩

/-! ## Shutdown hook (src/app.py lines 120-122)

The process-wide backend handles live in module globals and on the app
object; `close_aiohttp_session` touches exactly one of them. -/

/-- The backend handles shared process-wide: whether the relational store is
open, the memcache client handle, the redis pool handle, and whether the
outbound HTTP client is open. -/
structure Backends where
  dbOpen : Bool
  memcacheClient : Option Nat
  redisPool : Option Nat
  httpClientOpen : Bool
deriving DecidableEq, Repr

/-- Embedding of `close_aiohttp_session` (app.py line 121): awaits
`sanic_app.async_session.close()` and nothing else. -/
def close_aiohttp_session (s : Backends) : Backends :=
  { s with httpClientOpen := false }

/-- C10: shutdown closes the outbound HTTP client and leaves the relational
store, the memcache handle and the redis pool exactly as they were. -/
theorem shutdown_frame (s : Backends) :
    close_aiohttp_session s
      = Backends.mk s.dbOpen s.memcacheClient s.redisPool false := by
  rfl

/-! ## Per-request context middleware (src/app.py lines 125-133)

`setup_context` runs on the single-threaded asyncio event loop.  Its code
between await points is atomic, but `redis = await aioredis.create_redis_pool
(...)` suspends between the `redis is None` check (which also starts pool
construction) and the assignment of the global.  A request is therefore a
task with three program points: about to run the check, suspended inside the
awaited pool construction, and finished (remembering which pool the request
published into its context variable).  A scheduler interleaves tasks by
picking which task runs its next atomic segment. -/

/-- Program point of one request's execution of `setup_context`.  A pool is
identified by the sequence number of its construction; `awaitingCreate pid`
is a task suspended in the `await` of `create_redis_pool` which has already
begun constructing pool `pid`; `done o` is a finished task that published
pool `o` via `redis_var.set`. -/
inductive TaskPC
  | start
  | awaitingCreate (poolId : Nat)
  | done (observed : Option Nat)
deriving DecidableEq, Repr

/-- Process-wide state: the module-global `redis` handle, how many pools
have been constructed so far, and the program points of the in-flight
requests. -/
structure SysState where
  redis : Option Nat
  created : Nat
  tasks : List TaskPC
deriving DecidableEq, Repr

/-- One atomic segment of `setup_context` for a single task, given the
current global `redis` and the construction count.  At `start`: if the
global is absent, pool construction begins (a fresh pool id is allocated)
and the task suspends in the await; if present, the task publishes the
current global and finishes in the same segment.  At `awaitingCreate`: the
await resumes, the global is assigned the freshly built pool and published.
Returns the task's new program point, the new global, and the new count. -/
def setup_context_step (g : Option Nat) (created : Nat) :
    TaskPC → TaskPC × Option Nat × Nat
  | TaskPC.start =>
    match g with
    | none => (TaskPC.awaitingCreate (created + 1), none, created + 1)
    | some p => (TaskPC.done (some p), some p, created)
  | TaskPC.awaitingCreate pid => (TaskPC.done (some pid), some pid, created)
  | TaskPC.done o => (TaskPC.done o, g, created)

/-- The scheduler lets task `i` run its next atomic segment (no effect on an
out-of-range index or a finished task). -/
def step (s : SysState) (i : Nat) : SysState :=
  match s.tasks[i]? with
  | none => s
  | some pc =>
    let r := setup_context_step s.redis s.created pc
    SysState.mk r.2.1 r.2.2 (s.tasks.set i r.1)

/-- Run a whole interleaving: the schedule lists which task runs each next
atomic segment. -/
def run (sched : List Nat) (s : SysState) : SysState := sched.foldl step s

/-- Initial process state with `n` concurrent first requests: no global
redis handle, no pool constructed, every task about to run the check. -/
def initSys (n : Nat) : SysState := SysState.mk none 0 (List.replicate n TaskPC.start)

/-- C1: under two concurrent first requests interleaved so that both run the
`redis is None` check before either pool construction completes (schedule
`[0, 1, 0, 1]`), two pools are constructed — not exactly one — and the two
requests publish different pool instances into their contexts: the
check-then-create sequence spans an await and is not protected by any
single-writer guard. -/
theorem racy_pool_creation :
    (run [0, 1, 0, 1] (initSys 2)).created = 2 ∧
    (run [0, 1, 0, 1] (initSys 2)).tasks
      = [TaskPC.done (some 1), TaskPC.done (some 2)] ∧
    (run [0, 1, 0, 1] (initSys 2)).tasks[0]?
      ≠ (run [0, 1, 0, 1] (initSys 2)).tasks[1]? := by
  decide

/-! ## Lazy pool construction arguments (src/app.py lines 129-131)

The `create_redis_pool` call passes `config.REDIS_URL` together with the
literals `minsize=5, maxsize=20`. -/

/-- Modelled from the spec: the configuration surface (config.py is not part
of the module under inspection) carries the store URL and, per the
specification, connection-pool minimum and maximum sizes. -/
structure Config where
  REDIS_URL : String
  REDIS_POOL_MINSIZE : Nat
  REDIS_POOL_MAXSIZE : Nat
deriving DecidableEq, Repr

/-- Arguments handed to `aioredis.create_redis_pool`. -/
structure PoolArgs where
  address : String
  minsize : Nat
  maxsize : Nat
deriving DecidableEq, Repr

/-- Embedding of the `create_redis_pool` call site (app.py lines 130-131):
the address comes from configuration, the pool bounds are the literals 5
and 20. -/
def create_redis_pool_call (cfg : Config) : PoolArgs :=
  PoolArgs.mk cfg.REDIS_URL 5 20

/-- C7 counterexample: with a configuration whose pool sizes are 1 and 2,
the constructed pool still gets minsize 5 — the sizes are not read from
configuration; moreover under the racy interleaving of two first requests a
second pool is constructed after the first. -/
theorem pool_config_counterexample :
    ¬ ((create_redis_pool_call (Config.mk "redis://localhost" 1 2)).minsize
        = (Config.mk "redis://localhost" 1 2).REDIS_POOL_MINSIZE ∧
       (create_redis_pool_call (Config.mk "redis://localhost" 1 2)).maxsize
        = (Config.mk "redis://localhost" 1 2).REDIS_POOL_MAXSIZE) ∧
    (run [0, 1, 0, 1] (initSys 2)).created = 2 := by
  decide

/-- C7 (amended): the lazily created pool is constructed with the URL from
configuration and the hard-coded bounds minsize 5, maxsize 20; a scheduler
step taken while the global redis handle is already set constructs no new
pool; and the very first segment of the first request constructs the first
pool. -/
theorem pool_creation_lazy (cfg : Config) (s : SysState) (i : Nat)
    (h : s.redis.isSome = true) :
    create_redis_pool_call cfg = PoolArgs.mk cfg.REDIS_URL 5 20 ∧
    (step s i).created = s.created ∧
    (∀ n, (step (initSys (n + 1)) 0).created = 1) := by
  refine ⟨rfl, ?_, fun n => ?_⟩
  · match hm : s.tasks[i]? with
    | none => simp [step, hm]
    | some pc =>
      match pc with
      | TaskPC.start =>
        obtain ⟨p, hp⟩ := Option.isSome_iff_exists.mp h
        simp [step, hm, setup_context_step, hp]
      | TaskPC.awaitingCreate pid => simp [step, hm, setup_context_step]
      | TaskPC.done o => simp [step, hm, setup_context_step]
  · simp [step, initSys, List.replicate_succ, setup_context_step]

/-- C7 witness: with a concrete configuration the pool arguments are the URL
with bounds 5 and 20, and a step taken in a state whose global handle is
already pool 1 leaves the construction count at 1. -/
theorem pool_creation_lazy_witness :
    create_redis_pool_call (Config.mk "redis://localhost" 1 2)
      = PoolArgs.mk "redis://localhost" 5 20 ∧
    (step (SysState.mk (some 1) 1 [TaskPC.start]) 0).created = 1 := by
  have h := pool_creation_lazy (Config.mk "redis://localhost" 1 2)
    (SysState.mk (some 1) 1 [TaskPC.start]) 0 rfl
  exact ⟨h.1, h.2.1⟩

/-! ## Sitemap builder (src/app.py lines 136-152)

`_sitemap` collects content items (posts, then tags) with their creation
dates, then walks the router's registered routes: a route whose uri contains
one of `/admin`, `/j`, `/api` (Python's `in` — substring containment) is
skipped, and a remaining route is appended when `GET` is among its methods
and it has no parameters, with the synthesized date of ten days before now.
Dates are modelled as day numbers, so `ten_days_ago` is `now - 10`. -/

/-- A registered route as seen by the sitemap loop: its uri template, its
allowed methods and its positional parameters. -/
structure Route where
  uri : String
  methods : List String
  parameters : List String
deriving DecidableEq, Repr

/-- The skip test of the loop (app.py line 147): Python's
`any(endpoint in route.uri for endpoint in ('/admin', '/j', '/api'))` is
substring containment. -/
def routeExcluded (r : Route) : Bool :=
  ["/admin", "/j", "/api"].any (fun e => strContains r.uri e)

/-- Embedding of the route loop of `_sitemap` (app.py lines 146-150):
excluded uris are skipped, and a `GET` route without parameters is appended
with the synthesized date `td`, in iteration order. -/
def sitemapRouteLoop : List Route → Nat → List (String × Nat)
  | [], _ => []
  | r :: rest, td =>
    match routeExcluded r with
    | true => sitemapRouteLoop rest td
    | false =>
      match r.methods.contains "GET" && r.parameters.isEmpty with
      | true => (r.uri, td) :: sitemapRouteLoop rest td
      | false => sitemapRouteLoop rest td

/-- A content entity (post or tag) contributing its url and creation date. -/
structure ContentItem where
  url : String
  created_at : Nat
deriving DecidableEq, Repr

/-- The synthesized timestamp `(datetime.now() - timedelta(days=10))` of
app.py line 138, over day numbers. -/
def tenDaysAgo (now : Nat) : Nat := now - 10

/-- The item list built by `_sitemap` (app.py lines 141-150): post items,
then tag items, then the filtered route entries. -/
def sitemapItems (posts tags : List ContentItem) (routes : List Route)
    (now : Nat) : List (String × Nat) :=
  ((posts ++ tags).map fun it => (it.url, it.created_at))
    ++ sitemapRouteLoop routes (tenDaysAgo now)

/-- The external mako rendering of `sitemap.xml` (app.py line 152),
modelled as a deterministic serialization of the item list. -/
def render_string_sitemap (items : List (String × Nat)) : String :=
  toString items

/-- The filter described by the specification's wording for C5: GET method,
no positional parameters, and the uri does not belong to one of the excluded
URL-prefix groups, prefix meaning an initial segment of the uri. -/
def specIncludedRoute (r : Route) : Bool :=
  r.methods.contains "GET" && r.parameters.isEmpty &&
    !(["/admin", "/j", "/api"].any (fun p => strStarts r.uri p))

/-- The filter actually applied by the code: GET method, no positional
parameters, and none of `/admin`, `/j`, `/api` occurs anywhere in the
uri. -/
def codeIncludedRoute (r : Route) : Bool :=
  !(routeExcluded r) && (r.methods.contains "GET" && r.parameters.isEmpty)

theorem sitemapRouteLoop_eq_filter (routes : List Route) (td : Nat) :
    sitemapRouteLoop routes td
      = (routes.filter codeIncludedRoute).map fun r => (r.uri, td) := by
  induction routes with
  | nil => rfl
  | cons r rest ih =>
    rw [sitemapRouteLoop, List.filter_cons]
    cases hx : routeExcluded r with
    | true =>
      have hc : codeIncludedRoute r = false := by
        unfold codeIncludedRoute
        rw [hx]
        rfl
      rw [hc]
      simpa using ih
    | false =>
      cases hg : (r.methods.contains "GET" && r.parameters.isEmpty) with
      | true =>
        have hc : codeIncludedRoute r = true := by
          unfold codeIncludedRoute
          rw [hx, hg]
          rfl
        rw [hc]
        simpa using ih
      | false =>
        have hc : codeIncludedRoute r = false := by
          unfold codeIncludedRoute
          rw [hx, hg]
          rfl
        rw [hc]
        simpa using ih

/-- C5 counterexample: the route `GET /x/admin` (no parameters) satisfies the
claim's inclusion conditions — it is a GET route without parameters whose uri
does not start with any excluded prefix — yet the code's loop omits it,
because `/admin` occurs inside the uri and the code tests substring
containment, not prefixes. -/
theorem route_filter_counterexample :
    specIncludedRoute (Route.mk "/x/admin" ["GET"] []) = true ∧
    sitemapRouteLoop [Route.mk "/x/admin" ["GET"] []] 0 = [] := by
  decide

/-- C5 (amended): the sitemap item list is the content items followed by an
entry with timestamp ten days before now exactly for those routes that use
the GET method, take no positional parameters, and whose uri does not
contain `/admin`, `/j` or `/api` as a substring; on the claim's example
route set only `GET /` is included. -/
theorem route_filter_amended (posts tags : List ContentItem)
    (routes : List Route) (now : Nat) :
    sitemapItems posts tags routes now
      = ((posts ++ tags).map fun it => (it.url, it.created_at))
        ++ ((routes.filter codeIncludedRoute).map fun r => (r.uri, now - 10)) ∧
    sitemapRouteLoop
      [Route.mk "/" ["GET"] [], Route.mk "/post/<id>" ["GET"] ["id"],
       Route.mk "/admin/edit" ["GET"] [], Route.mk "/api/x" ["GET"] [],
       Route.mk "/comment" ["POST"] []] (tenDaysAgo now)
      = [("/", now - 10)] := by
  constructor
  · simp [sitemapItems, sitemapRouteLoop_eq_filter, tenDaysAgo]
  · rfl

/-! ## Generic cache decorator and the wrapped sitemap (src/app.py line 136)

`_sitemap` is wrapped by `@cache(MC_KEY_SITEMAP)`.  The decorator itself
lives in models/mc.py, outside the module under inspection, and is modelled
from the specification. -/

/-- Result of one invocation of a cache-wrapped computation: the returned
value, the memory cache afterwards, and how many times the wrapped
computation was invoked during the call. -/
structure CacheResult where
  value : String
  cache : List (String × String)
  calls : Nat
deriving DecidableEq, Repr

/-- Modelled from the spec: the generic cache decorator `cache(key)` of
models/mc.py is not part of the module under inspection.  Per the
specification, an invocation looks `key` up in the memory cache; if present
it returns the stored value without calling the wrapped computation, and if
absent it calls the computation, stores the result under `key`, and returns
it.  The `calls` field counts the invocations of the wrapped computation. -/
def cacheWrap (key : String) (f : Unit → String)
    (mc : List (String × String)) : CacheResult :=
  match kvGet mc key with
  | some v => CacheResult.mk v mc 0
  | none => CacheResult.mk (f ()) (kvSet mc key (f ())) 1

/-- Modelled from the spec: the well-known sitemap cache key constant
`MC_KEY_SITEMAP` of models/blog.py, shared between the builder and any
invalidation trigger; its exact text is immaterial here. -/
def MC_KEY_SITEMAP : String := "lyanna:sitemap"

/-- The body of `_sitemap` (app.py lines 137-152): build the item list from
the content set and the routes and render it. -/
def _sitemap_body (posts tags : List ContentItem) (routes : List Route)
    (now : Nat) : String :=
  render_string_sitemap (sitemapItems posts tags routes now)

/-- The decorated `_sitemap` (app.py line 136): the body wrapped by the
cache decorator under the well-known key. -/
def _sitemap (posts tags : List ContentItem) (routes : List Route) (now : Nat)
    (mc : List (String × String)) : CacheResult :=
  cacheWrap MC_KEY_SITEMAP (fun _ => _sitemap_body posts tags routes now) mc

/-- C2: a cache hit returns the stored value without invoking the wrapped
computation; a miss invokes it once, stores the result under the key and
returns it; consequently two successive calls of the wrapped sitemap with an
unmodified content set, starting from a cache without the key, invoke the
builder exactly once in total and the second call returns the identical
payload as the first. -/
theorem cache_memoization (key : String) (f : Unit → String)
    (mc : List (String × String)) (posts tags : List ContentItem)
    (routes : List Route) (now : Nat) :
    (∀ v, kvGet mc key = some v → cacheWrap key f mc = CacheResult.mk v mc 0) ∧
    (kvGet mc key = none →
      cacheWrap key f mc = CacheResult.mk (f ()) (kvSet mc key (f ())) 1) ∧
    (kvGet mc MC_KEY_SITEMAP = none →
      (_sitemap posts tags routes now mc).calls
        + (_sitemap posts tags routes now
            (_sitemap posts tags routes now mc).cache).calls = 1 ∧
      (_sitemap posts tags routes now
          (_sitemap posts tags routes now mc).cache).value
        = (_sitemap posts tags routes now mc).value) := by
  refine ⟨fun v h => by simp [cacheWrap, h], fun h => by simp [cacheWrap, h],
    fun h => ?_⟩
  constructor
  · simp [_sitemap, cacheWrap, h, kvGet_kvSet_same]
  · simp [_sitemap, cacheWrap, h, kvGet_kvSet_same]

/-- C2 witness: a hit on key `k` returns the stored `w` without a call, a
miss computes and stores `v` with one call, and the wrapped sitemap called
twice from the empty cache invokes the builder exactly once in total with
both calls returning the same payload. -/
theorem cache_memoization_witness :
    cacheWrap "k" (fun _ => "v") [("k", "w")] = CacheResult.mk "w" [("k", "w")] 0 ∧
    cacheWrap "k" (fun _ => "v") [] = CacheResult.mk "v" [("k", "v")] 1 ∧
    ((_sitemap [] [] [] 20 []).calls
        + (_sitemap [] [] [] 20 (_sitemap [] [] [] 20 []).cache).calls = 1 ∧
      (_sitemap [] [] [] 20 (_sitemap [] [] [] 20 []).cache).value
        = (_sitemap [] [] [] 20 []).value) := by
  refine ⟨(cache_memoization "k" (fun _ => "v") [("k", "w")] [] [] [] 20).1 "w" rfl,
    (cache_memoization "k" (fun _ => "v") [] [] [] [] 20).2.1 rfl,
    (cache_memoization MC_KEY_SITEMAP (fun _ => "") [] [] [] [] 20).2.2 rfl⟩

end Lyanna
